import Mathlib

/-!
Verification development for the ChicoX GovTech RFP frontend
(`src/frontend/script.js`).

The JavaScript source is shallowly embedded below:

* strings are Lean `String` (the sources are ASCII, so the ASCII-only
  `Char.toUpper`/`Char.toLower` coincide with JavaScript case mapping);
* JavaScript numbers are modelled exactly: the only numbers the embedded
  code manipulates are decimal literals parsed by `parseFloat`, scaled by
  1,000,000 and compared, and all of these operations are exact.  A number
  is represented as `Dec` (a natural mantissa over a power-of-ten
  denominator); `Dec.toRat` gives its value in `ℚ` and `Dec.le` decides the
  numeric order (`Dec.le_iff`);
* the DOM form fields and the `ChicoXApp` instance fields are gathered into
  one explicit `AppState`; remote `fetch` calls are modelled by passing the
  gateway outcome (`GatewayResult`) as an argument to the step function;
* `showNotification(msg, type)` calls are collected in the returned
  `StepResult.notifications` list (message, type), and `StepResult.gatewayCalled`
  records whether the operation reached its `fetch` call.
-/

/-- JavaScript `\s` (ASCII part): the whitespace characters relevant here. -/
def jsWhitespaceChar (c : Char) : Bool :=
  c = ' ' || c = '\t' || c = '\n' || c = '\r' || c = Char.ofNat 11 || c = Char.ofNat 12

/-- `String.prototype.toUpperCase` (ASCII). -/
def toUpperStr (s : String) : String := String.mk (s.data.map Char.toUpper)

/-- `String.prototype.toLowerCase` (ASCII). -/
def toLowerStr (s : String) : String := String.mk (s.data.map Char.toLower)

/-- `String.prototype.trim`. -/
def trimStr (s : String) : String :=
  String.mk (((s.data.dropWhile jsWhitespaceChar).reverse.dropWhile jsWhitespaceChar).reverse)

/-- `needle.isPrefixOf hay` on character lists, with `==` on `Char`. -/
def isPrefixList : List Char → List Char → Bool
  | [], _ => true
  | _ :: _, [] => false
  | a :: as, b :: bs => a == b && isPrefixList as bs

/-- Does `needle` occur as a contiguous sublist of `hay`?  (JS `String.prototype.includes`.) -/
def subOccurs (needle : List Char) : List Char → Bool
  | [] => needle.isEmpty
  | c :: rest => isPrefixList needle (c :: rest) || subOccurs needle rest

/-- `hay.includes(needle)` for strings. -/
def containsSub (hay needle : String) : Bool := subOccurs needle.data hay.data

/-- Separator class of the capability tokenizer: JS regex `[\s,&]`. -/
def sepChar (c : Char) : Bool := jsWhitespaceChar c || c = ',' || c = '&'

/-- Splits on runs of `[\s,&]+`, keeping only the non-empty chunks.
(JS `split` can also yield empty-string entries at the ends; those are
discarded by the caller's `length > 3` filter, so they are dropped here.)
The first argument is fuel, instantiated with the length of the list. -/
def tokensAux : Nat → List Char → List String
  | 0, _ => []
  | _ + 1, [] => []
  | fuel + 1, c :: rest =>
    if sepChar c then tokensAux fuel rest
    else
      String.mk (List.takeWhile (fun d => !sepChar d) (c :: rest)) ::
        tokensAux fuel (List.dropWhile (fun d => !sepChar d) (c :: rest))

/-- `cap.split(/[\s,&]+/)` restricted to its non-empty results. -/
def splitTokens (s : String) : List String := tokensAux s.data.length s.data

/-- Numeric value of a digit string (`[0-9]+`). -/
def digitsVal (ds : List Char) : Nat := ds.foldl (fun n c => 10 * n + (c.toNat - 48)) 0

/-- An exact non-negative decimal number: the value `mant / 10 ^ fexp`.
Every number handled by the embedded code is of this shape. -/
structure Dec where
  mant : Nat
  fexp : Nat
deriving Repr, DecidableEq

/-- The rational value of a `Dec`. -/
def Dec.toRat (d : Dec) : ℚ := (d.mant : ℚ) / (10 : ℚ) ^ d.fexp

/-- Decides `a ≤ b` on values (cross-multiplied form, kernel-computable). -/
def Dec.le (a b : Dec) : Bool := a.mant * 10 ^ b.fexp ≤ b.mant * 10 ^ a.fexp

/-- `Dec.le` decides exactly the numeric order of the represented values. -/
lemma Dec.le_iff (a b : Dec) : Dec.le a b = true ↔ a.toRat ≤ b.toRat := by
  have ha : (0 : ℚ) < (10 : ℚ) ^ a.fexp := by positivity
  have hb : (0 : ℚ) < (10 : ℚ) ^ b.fexp := by positivity
  rw [Dec.le, decide_eq_true_eq, Dec.toRat, Dec.toRat, div_le_div_iff₀ ha hb]
  rw [show ((10 : ℚ) ^ b.fexp) = ((10 ^ b.fexp : ℕ) : ℚ) by push_cast; ring,
      show ((10 : ℚ) ^ a.fexp) = ((10 ^ a.fexp : ℕ) : ℚ) by push_cast; ring]
  rw [← Nat.cast_mul, ← Nat.cast_mul, Nat.cast_le]

/-- Multiplication of a `Dec` by a natural scale factor (the source only
ever multiplies by `1000000`). -/
def Dec.mulNat (d : Dec) (n : Nat) : Dec := ⟨d.mant * n, d.fexp⟩

lemma Dec.toRat_mulNat (d : Dec) (n : Nat) : (d.mulNat n).toRat = d.toRat * n := by
  rw [Dec.mulNat, Dec.toRat, Dec.toRat]
  push_cast
  ring

/-- `parseFloat` of `ip "." fp` as an exact decimal. -/
def decOfDigits (ip fp : List Char) : Dec :=
  ⟨digitsVal ip * 10 ^ fp.length + digitsVal fp, fp.length⟩

/-- Matches the literal `Million` case-insensitively (regex `i` flag) and
returns the remaining characters. -/
def matchMillion : List Char → Option (List Char)
  | m1 :: m2 :: m3 :: m4 :: m5 :: m6 :: m7 :: rest =>
    if [m1.toLower, m2.toLower, m3.toLower, m4.toLower, m5.toLower, m6.toLower, m7.toLower]
        = ['m', 'i', 'l', 'l', 'i', 'o', 'n'] then
      some rest
    else none
  | _ => none

/-- Matches `([0-9]+(?:\.[0-9]+)?)\s*Million` (the part of the budget regex
after the `\$`), returning the parsed value of the captured number and the
characters after the match.  Greedy matching is deterministic for this
pattern: no backtracking alternative can succeed when the greedy walk fails. -/
def matchAfterDollar (l : List Char) : Option (Dec × List Char) :=
  let intDigits := l.takeWhile Char.isDigit
  let r1 := l.dropWhile Char.isDigit
  if intDigits.isEmpty then none
  else
    let fracAndRest : List Char × List Char :=
      match r1 with
      | '.' :: r =>
        let fd := r.takeWhile Char.isDigit
        if fd.isEmpty then ([], r1) else (fd, r.dropWhile Char.isDigit)
      | _ => ([], r1)
    let r3 := fracAndRest.2.dropWhile jsWhitespaceChar
    match matchMillion r3 with
    | some rest => some (decOfDigits intDigits fracAndRest.1, rest)
    | none => none

/-- Global scan of `content.match(/\$([0-9]+(?:\.[0-9]+)?)\s*Million/gi)`,
returning the parsed numeric value of each match in order.  (The source maps
each match string through `parseFloat(match.replace(/\$|Million/gi, ''))`,
which recovers exactly the number captured by the first group.)  The fuel is
instantiated with the length of the list; each step consumes at least one
character, so the scan never runs out. -/
def scanAux : Nat → List Char → List Dec
  | 0, _ => []
  | _ + 1, [] => []
  | fuel + 1, c :: rest =>
    if c = '$' then
      match matchAfterDollar rest with
      | some (v, rest2) => v :: scanAux fuel rest2
      | none => scanAux fuel rest
    else scanAux fuel rest

/-- All budget-pattern matches of `content`, as parsed values (in millions). -/
def scanBudgets (content : String) : List Dec := scanAux content.data.length content.data

/-- Ascending insertion into a sorted list (comparison on numeric value). -/
def insertAsc (x : Dec) : List Dec → List Dec
  | [] => [x]
  | y :: ys => if Dec.le x y then x :: y :: ys else y :: insertAsc x ys

/-- Ascending sort — the embedding of `budgets.sort((a, b) => a - b)`. -/
def sortAsc : List Dec → List Dec
  | [] => []
  | x :: xs => insertAsc x (sortAsc xs)

lemma length_insertAsc (x : Dec) (l : List Dec) : (insertAsc x l).length = l.length + 1 := by
  induction l with
  | nil => rfl
  | cons y ys ih =>
    rw [insertAsc]
    by_cases h : Dec.le x y
    · simp [h]
    · simp [h, ih]

lemma length_sortAsc (l : List Dec) : (sortAsc l).length = l.length := by
  induction l with
  | nil => rfl
  | cons x xs ih => rw [sortAsc, length_insertAsc, ih, List.length_cons]

lemma perm_insertAsc (x : Dec) (l : List Dec) : (insertAsc x l).Perm (x :: l) := by
  induction l with
  | nil => rfl
  | cons y ys ih =>
    rw [insertAsc]
    by_cases h : Dec.le x y = true
    · simp [h]
    · simp only [h, if_false]
      exact (ih.cons y).trans (List.Perm.swap x y ys)

/-- `sortAsc` permutes its input. -/
lemma perm_sortAsc (l : List Dec) : (sortAsc l).Perm l := by
  induction l with
  | nil => rfl
  | cons x xs ih => exact (perm_insertAsc x (sortAsc xs)).trans (ih.cons x)

lemma sorted_insertAsc (x : Dec) (l : List Dec)
    (h : l.Sorted (fun a b => a.toRat ≤ b.toRat)) :
    (insertAsc x l).Sorted (fun a b => a.toRat ≤ b.toRat) := by
  induction l with
  | nil => simp [insertAsc]
  | cons y ys ih =>
    rw [insertAsc]
    by_cases hxy : Dec.le x y = true
    · simp only [hxy, if_true]
      refine List.sorted_cons.mpr ⟨?_, h⟩
      intro b hb
      have hx := (Dec.le_iff x y).mp hxy
      rcases List.mem_cons.mp hb with rfl | hb2
      · exact hx
      · exact hx.trans (List.rel_of_sorted_cons h b hb2)
    · simp only [hxy, if_false]
      have hyx : y.toRat ≤ x.toRat :=
        le_of_not_le (fun hc => hxy ((Dec.le_iff x y).mpr hc))
      refine List.sorted_cons.mpr ⟨?_, ih (List.sorted_cons.mp h).2⟩
      intro b hb
      rcases List.mem_cons.mp ((perm_insertAsc x ys).mem_iff.mp hb) with rfl | hb2
      · exact hyx
      · exact List.rel_of_sorted_cons h b hb2

/-- `sortAsc` sorts ascending by numeric value. -/
lemma sorted_sortAsc (l : List Dec) :
    (sortAsc l).Sorted (fun a b => a.toRat ≤ b.toRat) := by
  induction l with
  | nil => simp [sortAsc]
  | cons x xs ih => exact sorted_insertAsc x (sortAsc xs) ih

/-- The fixed technology-term list of `extractProjectInfo`. -/
def techKeywords : List String :=
  ["iot", "sensors", "monitoring", "smart", "cloud", "analytics", "mobile", "api",
   "data", "security", "integration"]

/-- `if (p(word) && !keywords.includes(word)) keywords.push(word)`. -/
def pushIf (p : String → Bool) (ks : List String) (w : String) : List String :=
  if p w && !(ks.contains w) then ks ++ [w] else ks

/-- The capability phase of the keyword derivation: tokenize each lower-cased
capability on `[\s,&]+` and append every token longer than 3 characters that
is not yet present. -/
def capKeywordsOf (caps : List String) : List String :=
  caps.foldl
    (fun ks cap => (splitTokens (toLowerStr cap)).foldl (pushIf (fun w => w.length > 3)) ks)
    []

/-- The technology phase: append each fixed technology term whose upper-cased
form occurs in the upper-cased content and that is not yet present. -/
def allKeywordsOf (content : String) (caps : List String) : List String :=
  techKeywords.foldl
    (pushIf (fun kw => containsSub (toUpperStr content) (toUpperStr kw)))
    (capKeywordsOf caps)

/-- `CompanyAnalysis` as produced by the analyze gateway or the mock
(`getMockAnalysisData`). -/
structure CompanyAnalysis where
  company_name : String
  industry : String
  employees : String
  revenue : String
  capabilities : List String
  bonding_capacity : String
  credit_rating : String
  insurance : String
  certifications : List String
deriving Repr, DecidableEq

/-- The result record of `extractProjectInfo`.  `budget` is `none` exactly
when the source leaves `estimatedBudget` as the empty string. -/
structure ProjectInfo where
  description : String
  type : String
  budget : Option Dec
  keywords : List String
deriving Repr, DecidableEq

/-- Lines 258-266 of `extractProjectInfo`: the project-type decision. -/
def projectTypeOf (content : String) : String :=
  let upperContent := toUpperStr content
  if containsSub upperContent "SMART CITY" || containsSub upperContent "IOT" ||
      containsSub upperContent "TRAFFIC" then "smart-city"
  else if containsSub upperContent "ENVIRONMENTAL" || containsSub upperContent "MONITORING" ||
      containsSub upperContent "WATER" then "environmental"
  else if containsSub upperContent "ENERGY" || containsSub upperContent "MANAGEMENT" then
    "energy"
  else "general"

/-- Lines 269-280 of `extractProjectInfo`: the budget estimate
(`''`, i.e. `none`, when no pattern matches). -/
def budgetOf (content : String) : Option Dec :=
  let budgetMatches := scanBudgets content
  if budgetMatches.isEmpty then none
  else
    let budgets := budgetMatches.map (fun v => v.mulNat 1000000)
    let sorted := sortAsc budgets
    sorted.get? (sorted.length / 2)

/-- `extractProjectInfo(content, analysis)` from `src/frontend/script.js`. -/
def extractProjectInfo (content : String) (analysis : CompanyAnalysis) : ProjectInfo :=
  let capabilities := analysis.capabilities
  let projectType := projectTypeOf content
  let primaryCapabilities := capabilities.take 3
  let joined := toLowerStr (String.intercalate ", " primaryCapabilities)
  let description :=
    if projectType = "smart-city" then
      "Develop a comprehensive smart city solution incorporating " ++ joined ++
        ". The project should leverage IoT sensors, real-time data analytics, and cloud-based platforms to improve city operations and citizen services."
    else if projectType = "environmental" then
      "Implement an environmental monitoring system utilizing " ++ joined ++
        ". The solution should provide real-time environmental data collection, analysis, and reporting capabilities."
    else if projectType = "energy" then
      "Deploy an energy management platform incorporating " ++ joined ++
        ". The system should optimize energy consumption and provide comprehensive monitoring and reporting."
    else
      "Develop a technology solution leveraging " ++ joined ++
        ". The project should address municipal needs through innovative technology implementation."
  { description := description
    type := projectType
    budget := budgetOf content
    keywords := (allKeywordsOf content capabilities).take 8 }

example : scanBudgets "$1 Million and $2 Million" = [⟨1, 0⟩, ⟨2, 0⟩] := by decide

example : scanBudgets "no budget here" = [] := by decide

example : scanBudgets "costs $2.5 Million total" = [⟨25, 1⟩] := by decide

/-- The metadata of an uploaded file (its text is read only when `analyze`
runs and is therefore passed to the analyze step separately). -/
structure UploadedDoc where
  name : String
  sizeBytes : Nat
deriving Repr, DecidableEq

/-- An RFP document as returned by the generate/regenerate gateway or the
mock (`getMockRFPData`). -/
structure RFPDoc where
  title : String
  quality_score : String
  content : String
deriving Repr, DecidableEq

/-- The session state of `ChicoXApp` together with the form fields the code
reads and writes (`projectDescription`, `projectType`, `estimatedBudget`,
`keywords`, `feedbackText`).  `estimatedBudget` is `none` when the field
holds the empty string. -/
structure AppState where
  currentSection : String
  uploadedFile : Option UploadedDoc
  analysisData : Option CompanyAnalysis
  rfpData : Option RFPDoc
  projectDescription : String
  projectType : String
  estimatedBudget : Option Dec
  keywordsField : String
  feedbackText : String
deriving Repr, DecidableEq

/-- Outcome of one remote call: a parsed success body, or any failure
(network error, non-2xx response, timeout). -/
inductive GatewayResult (α : Type) where
  | ok (value : α)
  | failure
deriving Repr, DecidableEq

/-- Result of one controller operation: the successor state, whether the
operation reached its `fetch` call, and the `showNotification` calls it
made, as (message, type) pairs. -/
structure StepResult where
  state : AppState
  gatewayCalled : Bool
  notifications : List (String × String)
deriving Repr, DecidableEq

/-- `getMockAnalysisData()` from `src/frontend/script.js`. -/
def getMockAnalysisData : CompanyAnalysis where
  company_name := "GreenTech Solutions Inc."
  industry := "Environmental Technology & Smart City Solutions"
  employees := "150-200"
  revenue := "$25-35 Million"
  capabilities :=
    ["Smart City Infrastructure Development",
     "IoT Sensor Networks for Environmental Monitoring",
     "Energy Management Systems",
     "Water Quality Monitoring Solutions",
     "Traffic Management Systems"]
  bonding_capacity := "$10 Million"
  credit_rating := "4A1 (Excellent)"
  insurance := "General Liability: $2M, Professional: $5M"
  certifications :=
    ["ISO 9001:2015 Quality Management",
     "ISO 14001:2015 Environmental Management",
     "SOC 2 Type II Compliance",
     "FedRAMP Ready Status",
     "Minority Business Enterprise (MBE) Certified"]

/-- The fixed sample text substituted for the document content on the
degraded analyze path (`analyzeCompany`, catch branch). -/
def mockContent : String :=
  "GreenTech Solutions Inc. specializes in Smart City Infrastructure Development, IoT Sensor Networks for Environmental Monitoring, Energy Management Systems, Water Quality Monitoring Solutions, and Traffic Management Systems. Recent projects include $2.5 Million smart city deployment."

/-- `getMockRFPData()` from `src/frontend/script.js` (content abridged to
its first line only in no way — it is the full fixed string). -/
def getMockRFPData : RFPDoc where
  title := "Smart City Environmental Monitoring System"
  quality_score := "8/10"
  content := "REQUEST FOR PROPOSAL\nSMART CITY ENVIRONMENTAL MONITORING SYSTEM\n\nPROJECT OVERVIEW\nThe City seeks proposals for a comprehensive environmental monitoring system to track air quality, noise levels, and other environmental factors across the metropolitan area.\n\nBUDGET AND FINANCIAL REQUIREMENTS\nEstimated Budget: $1,000,000 - $2,500,000\nContract Duration: 24 months\nPayment Terms: Net 30 days\n\nTECHNICAL REQUIREMENTS\n- IoT sensor network deployment\n- Real-time data collection and analysis\n- Web-based dashboard and mobile app\n- Integration with existing city systems\n- 99.9% uptime requirement\n\nVENDOR QUALIFICATIONS\n- Minimum 5 years experience in smart city projects\n- ISO certifications required\n- Bonding capacity of at least $5 million\n- Local presence preferred\n\nEVALUATION CRITERIA\n- Technical approach (40%)\n- Cost proposal (30%)\n- Company qualifications (20%)\n- Project timeline (10%)\n\nSUBMISSION REQUIREMENTS\nProposals must be submitted by [DATE] and include:\n- Technical proposal\n- Cost breakdown\n- Company qualifications\n- Project timeline\n- References\n\nFor questions, contact: procurement@city.gov"

/-- JS `String.prototype.split` with a single-character separator, keeping
empty chunks (as JS does). -/
def splitOnCharList (sep : Char) : List Char → List (List Char)
  | [] => [[]]
  | c :: rest =>
    let r := splitOnCharList sep rest
    if c = sep then [] :: r
    else
      match r with
      | [] => [[c]]
      | h :: t => (c :: h) :: t

/-- `'.' + file.name.split('.').pop().toLowerCase()`. -/
def fileExtensionOf (name : String) : String :=
  "." ++ toLowerStr (String.mk ((splitOnCharList '.' name.data).getLastD []))

/-- The accepted upload extensions. -/
def allowedTypes : List String := [".txt", ".pdf", ".doc", ".docx"]

/-- `handleFileUpload(file)`: extension and size validation, then the file
is stored.  (The two rejection branches leave the state unchanged.) -/
def handleFileUpload (s : AppState) (f : UploadedDoc) : StepResult :=
  if !(allowedTypes.contains (fileExtensionOf f.name)) then
    ⟨s, false, [("Please upload a valid file type (TXT, PDF, DOC, DOCX)", "error")]⟩
  else if f.sizeBytes > 10 * 1024 * 1024 then
    ⟨s, false, [("File size must be less than 10MB", "error")]⟩
  else
    ⟨{ s with uploadedFile := some f }, false, []⟩

/-- `autoFillProjectDetails(content, analysis)`: runs `extractProjectInfo`
and writes the form fields.  A field is written only when the extracted
value is truthy: the description and type templates are always non-empty
strings, the budget string is empty exactly when no pattern matched, and
the keyword array is always truthy (so the field is always overwritten,
possibly with the empty join). -/
def autoFillProjectDetails (s : AppState) (content : String) (analysis : CompanyAnalysis) :
    AppState × List (String × String) :=
  let info := extractProjectInfo content analysis
  let s2 :=
    { s with
      projectDescription :=
        if info.description ≠ "" then info.description else s.projectDescription
      projectType := if info.type ≠ "" then info.type else s.projectType
      estimatedBudget := if info.budget.isSome then info.budget else s.estimatedBudget
      keywordsField := String.intercalate ", " info.keywords }
  (s2, [("Project details auto-filled based on company capabilities!", "success")])

/-- `analyzeCompany()`: guard on an uploaded file, navigate to the analyze
section, call the gateway; on success store the response, on any failure
store `getMockAnalysisData()` and auto-fill from `mockContent` instead of
the document text.  `fileContent` is the text read from the uploaded file. -/
def analyzeCompany (s : AppState) (fileContent : String)
    (gw : GatewayResult CompanyAnalysis) : StepResult :=
  match s.uploadedFile with
  | none => ⟨s, false, [("Please upload a company profile first", "error")]⟩
  | some _ =>
    let s2 := { s with currentSection := "analyze" }
    match gw with
    | GatewayResult.ok a =>
      let s3 := { s2 with analysisData := some a }
      let fill := autoFillProjectDetails s3 fileContent a
      ⟨fill.1, true, fill.2⟩
    | GatewayResult.failure =>
      let a := getMockAnalysisData
      let s3 := { s2 with analysisData := some a }
      let fill := autoFillProjectDetails s3 mockContent a
      ⟨fill.1, true, fill.2⟩

/-- `generateRFP()`: guard on a non-empty (trimmed) project description,
navigate to the results section, call the gateway; on success store the
response, on any failure store `getMockRFPData()`. -/
def generateRFP (s : AppState) (gw : GatewayResult RFPDoc) : StepResult :=
  if trimStr s.projectDescription = "" then
    ⟨s, false, [("Please provide a project description", "error")]⟩
  else
    let s2 := { s with currentSection := "results" }
    match gw with
    | GatewayResult.ok r => ⟨{ s2 with rfpData := some r }, true, []⟩
    | GatewayResult.failure => ⟨{ s2 with rfpData := some getMockRFPData }, true, []⟩

/-- `regenerateWithFeedback()`: guard on non-empty (trimmed) feedback, call
the gateway; on success store the response and clear the feedback field; on
failure show an error notification and leave the state untouched. -/
def regenerateWithFeedback (s : AppState) (gw : GatewayResult RFPDoc) : StepResult :=
  if trimStr s.feedbackText = "" then
    ⟨s, false, [("Please provide feedback for regeneration", "error")]⟩
  else
    match gw with
    | GatewayResult.ok r =>
      ⟨{ s with rfpData := some r, feedbackText := "" }, true, []⟩
    | GatewayResult.failure =>
      ⟨s, true, [("Failed to regenerate RFP. Please try again.", "error")]⟩

/-- `startNew()`: clears the file, the analysis and RFP data, the
description, budget, keyword and feedback fields, and navigates to the
upload section.  The `projectType` select is not among the fields the
source resets. -/
def startNew (s : AppState) : AppState :=
  { s with
    currentSection := "upload"
    uploadedFile := none
    analysisData := none
    rfpData := none
    projectDescription := ""
    estimatedBudget := none
    keywordsField := ""
    feedbackText := "" }

/-- The user/system events that drive the controller.  Gateway outcomes are
carried by the events that trigger remote calls. -/
inductive Event where
  | upload (f : UploadedDoc)
  | navigate (target : String)
  | editDescription (v : String)
  | editType (v : String)
  | editBudget (v : Option Dec)
  | editKeywords (v : String)
  | editFeedback (v : String)
  | analyze (fileContent : String) (gw : GatewayResult CompanyAnalysis)
  | generate (gw : GatewayResult RFPDoc)
  | regenerate (gw : GatewayResult RFPDoc)
  | startNew
deriving Repr, DecidableEq

/-- State transition of a single event (notifications discarded). -/
def stepEvent (s : AppState) : Event → AppState
  | Event.upload f => (handleFileUpload s f).state
  | Event.navigate sec => { s with currentSection := sec }
  | Event.editDescription v => { s with projectDescription := v }
  | Event.editType v => { s with projectType := v }
  | Event.editBudget v => { s with estimatedBudget := v }
  | Event.editKeywords v => { s with keywordsField := v }
  | Event.editFeedback v => { s with feedbackText := v }
  | Event.analyze fc gw => (analyzeCompany s fc gw).state
  | Event.generate gw => (generateRFP s gw).state
  | Event.regenerate gw => (regenerateWithFeedback s gw).state
  | Event.startNew => startNew s

/-- Runs a sequence of events. -/
def runEvents (s : AppState) (es : List Event) : AppState := es.foldl stepEvent s

/-- The state constructed by `new ChicoXApp()`: the upload section is
active and no data is present.  The initial value of the `projectType`
select is fixed by HTML that is not part of the sources, so it is a
parameter. -/
def initialState (projectType0 : String) : AppState where
  currentSection := "upload"
  uploadedFile := none
  analysisData := none
  rfpData := none
  projectDescription := ""
  projectType := projectType0
  estimatedBudget := none
  keywordsField := ""
  feedbackText := ""

/-- A representative valid upload. -/
def sampleDoc : UploadedDoc := ⟨"profile.txt", 2048⟩

example : (handleFileUpload (initialState "") sampleDoc).state.uploadedFile = some sampleDoc := by
  decide

set_option maxRecDepth 1000000

/-- An analysis value with every field blank, used as the second argument
of `extractProjectInfo` in concrete evaluations that do not depend on it. -/
def blankAnalysis : CompanyAnalysis :=
  { company_name := "", industry := "", employees := "", revenue := "",
    capabilities := [], bonding_capacity := "", credit_rating := "",
    insurance := "", certifications := [] }

/-- The classification as the specification words it: a case-insensitive
substring search against four ordered keyword groups, first match winning. -/
def classifySpec (content : String) : String :=
  if (["smart city", "iot", "traffic"].any
      fun k => containsSub (toUpperStr content) (toUpperStr k)) then "smart-city"
  else if (["environmental", "monitoring", "water"].any
      fun k => containsSub (toUpperStr content) (toUpperStr k)) then "environmental"
  else if (["energy", "management"].any
      fun k => containsSub (toUpperStr content) (toUpperStr k)) then "energy"
  else "general"

/-- Claim C4: for every input text, the project type classification of
`extractProjectInfo` is the case-insensitive first-match search over the
four ordered keyword groups (smart-city, environmental, energy, general);
and a text containing both "smart city" and "water" classifies as
smart-city (group-order tie-break). -/
theorem projectType_is_ordered_first_match :
    (∀ (content : String) (analysis : CompanyAnalysis),
      (extractProjectInfo content analysis).type = classifySpec content) ∧
    (extractProjectInfo "Our smart city team also delivers water systems"
      blankAnalysis).type = "smart-city" := by
  constructor
  · intro content analysis
    show projectTypeOf content = classifySpec content
    have h1 : toUpperStr "smart city" = "SMART CITY" := by decide
    have h2 : toUpperStr "iot" = "IOT" := by decide
    have h3 : toUpperStr "traffic" = "TRAFFIC" := by decide
    have h4 : toUpperStr "environmental" = "ENVIRONMENTAL" := by decide
    have h5 : toUpperStr "monitoring" = "MONITORING" := by decide
    have h6 : toUpperStr "water" = "WATER" := by decide
    have h7 : toUpperStr "energy" = "ENERGY" := by decide
    have h8 : toUpperStr "management" = "MANAGEMENT" := by decide
    unfold projectTypeOf classifySpec
    simp only [List.any_cons, List.any_nil, h1, h2, h3, h4, h5, h6, h7, h8,
      Bool.or_false, Bool.or_assoc]
  · decide

/-- Claim C3: the budget estimate is the scanned dollar/Million matches,
each scaled by 1,000,000, sorted ascending, at index `floor(count / 2)`;
on the two-match text the estimate is 2,000,000 (the upper element, not the
true median), and on the 1/3/2 text it is also 2,000,000. -/
theorem budget_is_upper_median_of_matches :
    (∀ (content : String) (analysis : CompanyAnalysis),
      (extractProjectInfo content analysis).budget =
        (sortAsc ((scanBudgets content).map (fun v => v.mulNat 1000000))).get?
          (((scanBudgets content).map (fun v => v.mulNat 1000000)).length / 2)) ∧
    ((extractProjectInfo "$1 Million and $2 Million" blankAnalysis).budget.map Dec.toRat)
      = some (2000000 : ℚ) ∧
    ((extractProjectInfo "$1 Million first, $3 Million second, $2 Million third"
        blankAnalysis).budget.map Dec.toRat) = some (2000000 : ℚ) := by
  refine ⟨fun content analysis => ?_, ?_, ?_⟩
  · show budgetOf content = _
    unfold budgetOf
    by_cases h : (scanBudgets content).isEmpty = true
    · rw [if_pos h]
      rw [List.isEmpty_iff] at h
      rw [h]
      rfl
    · rw [if_neg h]
      show (sortAsc ((scanBudgets content).map (fun v => v.mulNat 1000000))).get?
          ((sortAsc ((scanBudgets content).map (fun v => v.mulNat 1000000))).length / 2) = _
      rw [length_sortAsc, List.length_map]
  · have hb : (extractProjectInfo "$1 Million and $2 Million" blankAnalysis).budget
        = some ⟨2000000, 0⟩ := by decide
    rw [hb]
    simp [Dec.toRat]
  · have hb : (extractProjectInfo "$1 Million first, $3 Million second, $2 Million third"
        blankAnalysis).budget = some ⟨2000000, 0⟩ := by decide
    rw [hb]
    simp [Dec.toRat]

/-- Claim C6: a text with no occurrence of the dollar/Million pattern gets
an absent budget estimate, not zero. -/
theorem budget_absent_without_pattern (content : String) (analysis : CompanyAnalysis)
    (h : scanBudgets content = []) :
    (extractProjectInfo content analysis).budget = none := by
  show budgetOf content = none
  unfold budgetOf
  rw [h]
  rfl

lemma pushIf_nodup (p : String → Bool) (ks : List String) (w : String) (h : ks.Nodup) :
    (pushIf p ks w).Nodup := by
  unfold pushIf
  by_cases hc : (p w && !(ks.contains w)) = true
  · rw [if_pos hc]
    have hw : w ∉ ks := by
      have := (Bool.and_eq_true _ _).mp hc
      simpa using this.2
    exact List.Nodup.append h (List.nodup_singleton w)
      (by simpa [List.disjoint_singleton] using hw)
  · rw [if_neg hc]
    exact h

lemma foldl_pushIf_nodup (p : String → Bool) :
    ∀ (l init : List String), init.Nodup → (l.foldl (pushIf p) init).Nodup := by
  intro l
  induction l with
  | nil => intro init h; simpa using h
  | cons w l ih =>
    intro init h
    rw [List.foldl_cons]
    exact ih _ (pushIf_nodup p init w h)

lemma foldl_pushIf_extend (p : String → Bool) :
    ∀ (l init : List String), ∃ ts, l.foldl (pushIf p) init = init ++ ts ∧
      ∀ t ∈ ts, t ∈ l ∧ p t = true ∧ t ∉ init := by
  intro l
  induction l with
  | nil => intro init; exact ⟨[], by simp, by simp⟩
  | cons w l ih =>
    intro init
    rw [List.foldl_cons]
    by_cases hc : (p w && !(init.contains w)) = true
    · have hstep : pushIf p init w = init ++ [w] := by rw [pushIf, if_pos hc]
      rw [hstep]
      obtain ⟨ts, hts, hall⟩ := ih (init ++ [w])
      refine ⟨w :: ts, by rw [hts]; simp, ?_⟩
      intro t ht
      rcases List.mem_cons.mp ht with rfl | ht2
      · have hparts := (Bool.and_eq_true _ _).mp hc
        exact ⟨List.mem_cons_self t l, hparts.1, by simpa using hparts.2⟩
      · obtain ⟨htl, htp, htni⟩ := hall t ht2
        exact ⟨List.mem_cons_of_mem w htl, htp, fun hm => htni (List.mem_append_left _ hm)⟩
    · have hstep : pushIf p init w = init := by rw [pushIf, if_neg hc]
      rw [hstep]
      obtain ⟨ts, hts, hall⟩ := ih init
      exact ⟨ts, hts, fun t ht =>
        ⟨List.mem_cons_of_mem w (hall t ht).1, (hall t ht).2.1, (hall t ht).2.2⟩⟩

lemma capKeywordsOf_nodup (caps : List String) : (capKeywordsOf caps).Nodup := by
  suffices h : ∀ (cs init : List String), init.Nodup →
      (cs.foldl
        (fun ks cap => (splitTokens (toLowerStr cap)).foldl (pushIf (fun w => w.length > 3)) ks)
        init).Nodup by
    exact h caps [] List.nodup_nil
  intro cs
  induction cs with
  | nil => intro init h; simpa using h
  | cons c cs ih =>
    intro init h
    rw [List.foldl_cons]
    exact ih _ (foldl_pushIf_nodup _ _ init h)

lemma allKeywordsOf_nodup (content : String) (caps : List String) :
    (allKeywordsOf content caps).Nodup :=
  foldl_pushIf_nodup _ _ _ (capKeywordsOf_nodup caps)

/-- Claim C5: the derived keyword list never exceeds 8 entries, never
contains duplicates, and is the 8-truncation of: capability-derived tokens
(in first-seen order) followed by the fixed technology terms that occur
(upper-cased) in the upper-cased text and are not already present. -/
theorem keywords_bounded_nodup_ordered (content : String) (analysis : CompanyAnalysis) :
    (extractProjectInfo content analysis).keywords.length ≤ 8 ∧
    (extractProjectInfo content analysis).keywords.Nodup ∧
    (extractProjectInfo content analysis).keywords
      = (allKeywordsOf content analysis.capabilities).take 8 ∧
    ∃ ts, allKeywordsOf content analysis.capabilities
        = capKeywordsOf analysis.capabilities ++ ts ∧
      ∀ t ∈ ts, t ∈ techKeywords ∧
        containsSub (toUpperStr content) (toUpperStr t) = true ∧
        t ∉ capKeywordsOf analysis.capabilities := by
  have hk : (extractProjectInfo content analysis).keywords
      = (allKeywordsOf content analysis.capabilities).take 8 := rfl
  refine ⟨?_, ?_, hk, ?_⟩
  · rw [hk, List.length_take]
    exact min_le_left _ _
  · rw [hk]
    exact List.Nodup.sublist (List.take_sublist 8 _) (allKeywordsOf_nodup content _)
  · exact foldl_pushIf_extend _ techKeywords (capKeywordsOf analysis.capabilities)

/-- Witness for `budget_absent_without_pattern` at a concrete pattern-free
text. -/
theorem budget_absent_without_pattern_witness :
    scanBudgets "city parks renovation plan" = [] ∧
    (extractProjectInfo "city parks renovation plan" blankAnalysis).budget = none :=
  ⟨by decide,
    budget_absent_without_pattern "city parks renovation plan" blankAnalysis (by decide)⟩

/-- The auto-fill success message. -/
def autoFillMsg : String := "Project details auto-filled based on company capabilities!"

/-- Claim C1: when a document is uploaded and the analyze gateway call
fails, the controller stores the fixed mock CompanyAnalysis (a non-empty
record), lands in the analyze section anyway, and emits no error
notification — the same section and the same notifications as the success
case. -/
theorem analyze_failure_degrades_to_mock (s : AppState) (fileContent : String)
    (a : CompanyAnalysis) (h : s.uploadedFile.isSome = true) :
    (analyzeCompany s fileContent GatewayResult.failure).state.analysisData
      = some getMockAnalysisData ∧
    getMockAnalysisData.company_name = "GreenTech Solutions Inc." ∧
    getMockAnalysisData.capabilities.length = 5 ∧
    (analyzeCompany s fileContent GatewayResult.failure).state.currentSection = "analyze" ∧
    (analyzeCompany s fileContent GatewayResult.failure).notifications
      = [(autoFillMsg, "success")] ∧
    (analyzeCompany s fileContent (GatewayResult.ok a)).state.currentSection = "analyze" ∧
    (analyzeCompany s fileContent (GatewayResult.ok a)).notifications
      = [(autoFillMsg, "success")] := by
  obtain ⟨f, hf⟩ := Option.isSome_iff_exists.mp h
  refine ⟨?_, rfl, rfl, ?_, ?_, ?_, ?_⟩ <;>
    simp [analyzeCompany, hf, autoFillProjectDetails, autoFillMsg]

/-- A previously generated RFP document, used in concrete regenerate
scenarios. -/
def prevRfp : RFPDoc := ⟨"City RFP Draft", "7/10", "Original draft content"⟩

/-- Claim C2: when the feedback is non-empty and the regenerate gateway
call fails, the failure is surfaced as an error notification, no mock data
is substituted, and the whole state — in particular the stored RFPDocument
— is unchanged. -/
theorem regenerate_failure_reports_error_keeps_state (s : AppState)
    (h : trimStr s.feedbackText ≠ "") :
    regenerateWithFeedback s GatewayResult.failure
      = ⟨s, true, [("Failed to regenerate RFP. Please try again.", "error")]⟩ := by
  unfold regenerateWithFeedback
  rw [if_neg h]

/-- A session holding a previously generated RFP document and pending
feedback text. -/
def feedbackState : AppState :=
  { currentSection := "results", uploadedFile := some sampleDoc,
    analysisData := some getMockAnalysisData, rfpData := some prevRfp,
    projectDescription := "Deploy sensors", projectType := "smart-city",
    estimatedBudget := none, keywordsField := "", feedbackText := "make it shorter" }

/-- Witness for `regenerate_failure_reports_error_keeps_state`: a session
holding an RFP document and the feedback "make it shorter". -/
theorem regenerate_failure_reports_error_keeps_state_witness :
    trimStr feedbackState.feedbackText ≠ "" ∧
    regenerateWithFeedback feedbackState GatewayResult.failure
      = ⟨feedbackState, true, [("Failed to regenerate RFP. Please try again.", "error")]⟩ :=
  ⟨by decide, regenerate_failure_reports_error_keeps_state feedbackState (by decide)⟩

/-- Claim C7: calling analyze with no uploaded document reports an error,
makes no gateway call, and changes nothing. -/
theorem analyze_without_upload_rejected (s : AppState) (fileContent : String)
    (gw : GatewayResult CompanyAnalysis) (h : s.uploadedFile = none) :
    analyzeCompany s fileContent gw
      = ⟨s, false, [("Please upload a company profile first", "error")]⟩ := by
  unfold analyzeCompany
  rw [h]

/-- Witness for `analyze_without_upload_rejected`: the fresh session. -/
theorem analyze_without_upload_rejected_witness :
    (initialState "").uploadedFile = none ∧
    analyzeCompany (initialState "") "some text" GatewayResult.failure
      = ⟨initialState "", false, [("Please upload a company profile first", "error")]⟩ :=
  ⟨rfl, analyze_without_upload_rejected (initialState "") "some text" GatewayResult.failure rfl⟩

/-- The fresh session right after a successful upload of `sampleDoc`. -/
def uploadedState : AppState := (handleFileUpload (initialState "") sampleDoc).state

/-- Witness for `analyze_failure_degrades_to_mock` at the state after
uploading `sampleDoc`. -/
theorem analyze_failure_degrades_to_mock_witness :
    uploadedState.uploadedFile.isSome = true ∧
    ((analyzeCompany uploadedState "company profile text" GatewayResult.failure).state.analysisData
        = some getMockAnalysisData ∧
      getMockAnalysisData.company_name = "GreenTech Solutions Inc." ∧
      getMockAnalysisData.capabilities.length = 5 ∧
      (analyzeCompany uploadedState "company profile text"
          GatewayResult.failure).state.currentSection = "analyze" ∧
      (analyzeCompany uploadedState "company profile text" GatewayResult.failure).notifications
        = [(autoFillMsg, "success")] ∧
      (analyzeCompany uploadedState "company profile text"
          (GatewayResult.ok blankAnalysis)).state.currentSection = "analyze" ∧
      (analyzeCompany uploadedState "company profile text"
          (GatewayResult.ok blankAnalysis)).notifications = [(autoFillMsg, "success")]) :=
  ⟨by decide,
    analyze_failure_degrades_to_mock uploadedState "company profile text" blankAnalysis
      (by decide)⟩

/-- Claim C10: on the degraded analyze path the pre-filled project brief is
computed from the fixed built-in sample text `mockContent` (which mentions
smart city, IoT, environmental monitoring and $2.5 Million), not from the
uploaded document: the whole step result is independent of the document
text, and the pre-filled fields are the constants extracted from
`mockContent` — type "smart-city" and budget 2,500,000 among them. -/
theorem degraded_prefill_is_constant (s : AppState) (fc fc2 : String)
    (h : s.uploadedFile.isSome = true) :
    analyzeCompany s fc GatewayResult.failure = analyzeCompany s fc2 GatewayResult.failure ∧
    (analyzeCompany s fc GatewayResult.failure).state.projectDescription
      = (extractProjectInfo mockContent getMockAnalysisData).description ∧
    (analyzeCompany s fc GatewayResult.failure).state.projectType
      = (extractProjectInfo mockContent getMockAnalysisData).type ∧
    (analyzeCompany s fc GatewayResult.failure).state.estimatedBudget
      = (extractProjectInfo mockContent getMockAnalysisData).budget ∧
    (analyzeCompany s fc GatewayResult.failure).state.keywordsField
      = String.intercalate ", " (extractProjectInfo mockContent getMockAnalysisData).keywords ∧
    (extractProjectInfo mockContent getMockAnalysisData).type = "smart-city" ∧
    ((extractProjectInfo mockContent getMockAnalysisData).budget.map Dec.toRat)
      = some (2500000 : ℚ) ∧
    containsSub (toUpperStr mockContent) "SMART CITY" = true ∧
    containsSub (toUpperStr mockContent) "IOT" = true ∧
    containsSub (toUpperStr mockContent) "ENVIRONMENTAL MONITORING" = true ∧
    containsSub mockContent "$2.5 Million" = true := by
  obtain ⟨f, hf⟩ := Option.isSome_iff_exists.mp h
  have hd : (extractProjectInfo mockContent getMockAnalysisData).description ≠ "" := by decide
  have ht : (extractProjectInfo mockContent getMockAnalysisData).type ≠ "" := by decide
  have hb : (extractProjectInfo mockContent getMockAnalysisData).budget.isSome = true := by
    decide
  have hbval : (extractProjectInfo mockContent getMockAnalysisData).budget
      = some ⟨25000000, 1⟩ := by decide
  refine ⟨?_, ?_, ?_, ?_, ?_, by decide, ?_, by decide, by decide, by decide, by decide⟩
  · simp [analyzeCompany, hf]
  · simp [analyzeCompany, hf, autoFillProjectDetails, hd]
  · simp [analyzeCompany, hf, autoFillProjectDetails, ht]
  · simp [analyzeCompany, hf, autoFillProjectDetails, hb]
  · simp [analyzeCompany, hf, autoFillProjectDetails]
  · rw [hbval]
    simp [Dec.toRat]
    norm_num

/-- Witness for `degraded_prefill_is_constant`: two different document
texts after uploading `sampleDoc`. -/
theorem degraded_prefill_is_constant_witness :
    uploadedState.uploadedFile.isSome = true ∧
    (analyzeCompany uploadedState "first document" GatewayResult.failure
        = analyzeCompany uploadedState "second document" GatewayResult.failure ∧
      (analyzeCompany uploadedState "first document" GatewayResult.failure).state.projectDescription
        = (extractProjectInfo mockContent getMockAnalysisData).description ∧
      (analyzeCompany uploadedState "first document" GatewayResult.failure).state.projectType
        = (extractProjectInfo mockContent getMockAnalysisData).type ∧
      (analyzeCompany uploadedState "first document" GatewayResult.failure).state.estimatedBudget
        = (extractProjectInfo mockContent getMockAnalysisData).budget ∧
      (analyzeCompany uploadedState "first document" GatewayResult.failure).state.keywordsField
        = String.intercalate ", " (extractProjectInfo mockContent getMockAnalysisData).keywords ∧
      (extractProjectInfo mockContent getMockAnalysisData).type = "smart-city" ∧
      ((extractProjectInfo mockContent getMockAnalysisData).budget.map Dec.toRat)
        = some (2500000 : ℚ) ∧
      containsSub (toUpperStr mockContent) "SMART CITY" = true ∧
      containsSub (toUpperStr mockContent) "IOT" = true ∧
      containsSub (toUpperStr mockContent) "ENVIRONMENTAL MONITORING" = true ∧
      containsSub mockContent "$2.5 Million" = true) :=
  ⟨by decide,
    degraded_prefill_is_constant uploadedState "first document" "second document" (by decide)⟩

/-- A reachable session in which the user uploaded a document, navigated
straight to the generate section via the nav bar, and typed a project
description by hand — no analysis ever ran. -/
def c8State : AppState :=
  runEvents (initialState "")
    [Event.upload sampleDoc, Event.navigate "generate",
     Event.editDescription "Deploy citywide air quality sensors"]

/-- Counterexample to claim C8 as stated: in `c8State` the CompanyAnalysis
is absent, yet `generateRFP` reports no error, reaches its gateway call,
moves to the results section and (here, on gateway failure) stores the
mock RFP — it does not fail with a precondition error. -/
theorem generate_without_analysis_proceeds :
    c8State.analysisData = none ∧
    (generateRFP c8State GatewayResult.failure).notifications = [] ∧
    (generateRFP c8State GatewayResult.failure).gatewayCalled = true ∧
    (generateRFP c8State GatewayResult.failure).state.currentSection = "results" ∧
    (generateRFP c8State GatewayResult.failure).state.rfpData = some getMockRFPData := by
  decide

/-- Claim C8 as amended: the only guard of `generateRFP` is the project
description — with an empty (trimmed) description it reports an error,
makes no gateway call and changes nothing; the presence of CompanyAnalysis
is not checked.  Since the description field is empty until analyze
auto-fills it or the user types one, calling generate on an untouched
session fails this way. -/
theorem generate_empty_description_rejected (s : AppState) (gw : GatewayResult RFPDoc)
    (h : trimStr s.projectDescription = "") :
    generateRFP s gw = ⟨s, false, [("Please provide a project description", "error")]⟩ := by
  unfold generateRFP
  rw [if_pos h]

/-- Witness for `generate_empty_description_rejected`: the fresh session,
whose description field is the empty string. -/
theorem generate_empty_description_rejected_witness :
    trimStr (initialState "").projectDescription = "" ∧
    generateRFP (initialState "") GatewayResult.failure
      = ⟨initialState "", false, [("Please provide a project description", "error")]⟩ :=
  ⟨by decide,
    generate_empty_description_rejected (initialState "") GatewayResult.failure (by decide)⟩

/-- A full degraded workflow ending in the start-new command: upload, then
analyze with a failing gateway (which auto-fills the form, setting the
project type to "smart-city"), then `startNew()`. -/
def c9State : AppState :=
  runEvents (initialState "")
    [Event.upload sampleDoc, Event.analyze "irrelevant document text" GatewayResult.failure,
     Event.startNew]

/-- Counterexample to claim C9 as stated: after `startNew()` the uploaded
document, analysis and RFP are cleared and the session is back at the
upload section, but the project brief is not entirely empty — the project
type select still holds "smart-city" from before the reset. -/
theorem reset_retains_project_type :
    c9State.currentSection = "upload" ∧
    c9State.uploadedFile = none ∧
    c9State.analysisData = none ∧
    c9State.rfpData = none ∧
    c9State.projectDescription = "" ∧
    c9State.estimatedBudget = none ∧
    c9State.keywordsField = "" ∧
    c9State.feedbackText = "" ∧
    c9State.projectType = "smart-city" := by
  decide

/-- Claim C9 as amended: `startNew()` clears the uploaded document, the
analysis, the RFP, the description, budget, keyword and feedback fields and
returns to the upload section from any prior state — but it leaves the
project type selection untouched. -/
theorem startNew_clears_all_but_projectType (s : AppState) :
    startNew s
      = { currentSection := "upload", uploadedFile := none, analysisData := none,
          rfpData := none, projectDescription := "", projectType := s.projectType,
          estimatedBudget := none, keywordsField := "", feedbackText := "" } := rfl
